import Mathlib

/-!
Verification of the orchestration core of `gen_traces.py` (the PP trace
generation and replay benchmark driver).

The development shallowly embeds the script's pure logic over `List Char`:

* the goal translator `convert_but_to_goal` together with executable models
  of the two regular-expression substitutions it performs
  (`re.sub(r'Flag\(TypeOn\([^)]+\)\)\s*&\s*', '', _)` and
  `re.sub(r'Flag\(FileOn\("([^"]+)"\)\)', repl, _)`);
* the bounded process runner `run_krt_timed`, with the observable behavior
  of the external process abstracted into an `ExecBehavior` value;
* the suffix-based output router `move_to_output_dir`;
* the failure classifier `categorize_replay_error`;
* the per-file pipeline `process_but_file`, with the file-system facts the
  pipeline reads (capture-artifact size, result-flag file content) supplied
  as an explicit environment and the file-system effects it performs
  (artifact deletion, routing) returned as explicit data.

All definitions are structurally recursive, hence executable and
kernel-reducible, so concrete runs can be settled by `decide`.
-/

namespace GenTraces

set_option maxRecDepth 40000

/-- The whitespace class matched by the regex escape for spaces in the
script's patterns, restricted to the ASCII range (directive texts handled
by the tool are ASCII). -/
def pyIsSpace (c : Char) : Bool :=
  c == ' ' || c == '\t' || c == '\n' || c == '\r' || c == '\x0b' || c == '\x0c'

/-- Python `str.strip()`: remove leading and trailing whitespace. -/
def pyStrip (s : List Char) : List Char :=
  ((s.dropWhile pyIsSpace).reverse.dropWhile pyIsSpace).reverse

/-- Python truthiness of an optional string: `None` and `""` are falsy. -/
def pyTruthyStr : Option (List Char) → Bool
  | none => false
  | some s => !s.isEmpty

/-- Python `pat in s` substring test (for the patterns used here, which are
all non-empty). -/
def containsSub (pat : List Char) : List Char → Bool
  | [] => pat.isPrefixOf []
  | c :: cs => pat.isPrefixOf (c :: cs) || containsSub pat cs

/-- Number of positions of `s` at which `pat` occurs as a substring. -/
def countSub (pat : List Char) : List Char → Nat
  | [] => if pat.isPrefixOf [] then 1 else 0
  | c :: cs => (if pat.isPrefixOf (c :: cs) then 1 else 0) + countSub pat cs

/-- Match a literal pattern at the head of `s`; on success return the number
of characters consumed together with the remaining input. -/
def dropPrefixCnt : List Char → List Char → Option (Nat × List Char)
  | [], s => some (0, s)
  | _ :: _, [] => none
  | p :: ps, c :: cs =>
    if p == c then
      match dropPrefixCnt ps cs with
      | some (n, r) => some (n + 1, r)
      | none => none
    else none

/-- Greedily consume characters satisfying `p`; return the count consumed
and the remaining input. -/
def spanCount (p : Char → Bool) : List Char → Nat × List Char
  | [] => (0, [])
  | c :: cs =>
    if p c then
      let nr := spanCount p cs
      (nr.1 + 1, nr.2)
    else (0, c :: cs)

/-- Literal marker opening a type-declaration clause. -/
def typeMarker : List Char := "Flag(TypeOn(".toList

/-- Literal marker used by the script's `'Flag(FileOn(' in content` test. -/
def fileMarker : List Char := "Flag(FileOn(".toList

/-- Opening of a result-file clause as matched by the substitution pattern
(the marker followed by the opening double quote). -/
def fileMarkerQ : List Char := "Flag(FileOn(\"".toList

/-- Literal marker opening a trace-capture clause. -/
def traceMarker : List Char := "Flag(TraceOn(".toList

/-- Length of the match, if any, of the pattern
`Flag\(TypeOn\([^)]+\)\)\s*&\s*` at the head of `s`.  The quantifiers are
greedy exactly as in the regex engine: the parenthesis-free body is the
maximal run of characters other than a closing parenthesis, and the
trailing whitespace run is maximal. -/
def matchTypeOnLen (s : List Char) : Option Nat :=
  match dropPrefixCnt typeMarker s with
  | none => none
  | some (n1, r1) =>
    let body := spanCount (fun c => c != ')') r1
    if body.1 == 0 then none
    else
      match dropPrefixCnt "))".toList body.2 with
      | none => none
      | some (n2, r3) =>
        let ws1 := spanCount pyIsSpace r3
        match ws1.2 with
        | '&' :: r5 =>
          let ws2 := spanCount pyIsSpace r5
          some (n1 + body.1 + n2 + ws1.1 + 1 + ws2.1)
        | _ => none

/-- Length of the match, if any, of the pattern
`Flag\(FileOn\("([^"]+)"\)\)` at the head of `s`.  The quoted name is the
maximal non-empty run of characters other than a double quote. -/
def matchFileOnLen (s : List Char) : Option Nat :=
  match dropPrefixCnt fileMarkerQ s with
  | none => none
  | some (n1, r1) =>
    let body := spanCount (fun c => c != '"') r1
    if body.1 == 0 then none
    else
      match dropPrefixCnt "\"))".toList body.2 with
      | none => none
      | some (n2, _) => some (n1 + body.1 + n2)

/-- Left-to-right scan deleting every non-overlapping match of the
type-declaration pattern, as `re.sub` with an empty replacement does.  The
first argument counts characters of a previously found match still to be
skipped. -/
def stripGo : Nat → List Char → List Char
  | _, [] => []
  | Nat.succ n, _ :: cs => stripGo n cs
  | 0, c :: cs =>
    match matchTypeOnLen (c :: cs) with
    | some len => stripGo (len - 1) cs
    | none => c :: stripGo 0 cs

/-- Left-to-right scan replacing every non-overlapping match of the
result-file pattern by `rpl`, as `re.sub` does (the replacement text is
inserted literally and is not rescanned). -/
def replaceGo (rpl : List Char) : Nat → List Char → List Char
  | _, [] => []
  | Nat.succ n, _ :: cs => replaceGo rpl n cs
  | 0, c :: cs =>
    match matchFileOnLen (c :: cs) with
    | some len => rpl ++ replaceGo rpl (len - 1) cs
    | none => c :: replaceGo rpl 0 cs

/-- `re.sub(r'Flag\(TypeOn\([^)]+\)\)\s*&\s*', '', s)`. -/
def stripTypeOn (s : List Char) : List Char := stripGo 0 s

/-- `re.sub(r'Flag\(FileOn\("([^"]+)"\)\)', rpl, s)` for a replacement text
free of backreferences (the script interpolates plain filenames). -/
def replaceFileOn (rpl s : List Char) : List Char := replaceGo rpl 0 s

/-- `Flag(TraceOn("t"))`. -/
def traceOnFlag (t : List Char) : List Char :=
  "Flag(TraceOn(\"".toList ++ t ++ "\"))".toList

/-- `Flag(FileOn("r"))`. -/
def fileOnFlag (r : List Char) : List Char :=
  "Flag(FileOn(\"".toList ++ r ++ "\"))".toList

/-- A type-declaration clause `Flag(TypeOn(x))`, the shape the script's
docstring documents for the head of a `.but` file. -/
def typeOnFlag (x : List Char) : List Char :=
  "Flag(TypeOn(".toList ++ x ++ "))".toList

/-- Whether a complete result-file clause (a match of the substitution
pattern) occurs anywhere in `s`. -/
def hasFileOnClause (s : List Char) : Bool :=
  s.tails.any fun v => (matchFileOnLen v).isSome

/-- The conjunction separator interpolated by the script. -/
def sep : List Char := " & ".toList

/-- The replacement text
`Flag(TraceOn("{trace}")) & Flag(FileOn("{res}"))`. -/
def fileOnRepl (t r : List Char) : List Char :=
  traceOnFlag t ++ sep ++ fileOnFlag r

/-- `convert_but_to_goal` from the script: strip the type-declaration
clause, then either rewrite an existing result-file clause or prepend a
synthetic trace-and-result clause. -/
def convert_but_to_goal (but_content trace_filename res_filename : List Char) :
    List Char :=
  let content := stripTypeOn but_content
  if containsSub fileMarker content then
    replaceFileOn (fileOnRepl trace_filename res_filename) content
  else
    fileOnRepl trace_filename res_filename ++ sep ++ content

/-- `create_replay_goal` from the script: the fixed stage-2 template. -/
def create_replay_goal (trace_filename replay_res_filename : List Char) :
    List Char :=
  "Flag(FileOn(\"".toList ++ replay_res_filename ++ "\")) & (\"".toList ++
    trace_filename ++ "\")".toList

/-- `StageResult` from the script.  Elapsed times are modelled as rationals;
none of the verified properties depends on their arithmetic. -/
structure StageResult where
  success : Bool
  elapsed_seconds : Rat
  timeout : Bool := false
  error : Option (List Char) := none
  output_size : Nat := 0
deriving DecidableEq

/-- The observable behavior of one external execution, the only thing
`run_krt_timed` can see: the process completes with an exit code, stdout
and stderr, or the wall-clock timeout expires, or launching or running the
process raises an exception whose text is `message`. -/
inductive ExecBehavior where
  | completed (returncode : Int) (stdout stderr : List Char) (elapsed : Rat)
  | timedOut (elapsed : Rat)
  | raised (message : List Char) (elapsed : Rat)
deriving DecidableEq

/-- The synthetic timeout error text `f"Timeout after {timeout}s"`; the
numeric rendering of the timeout value is abstracted to the rendering of
the rational. -/
def timeoutMessage (timeout : Rat) : List Char :=
  "Timeout after ".toList ++ (toString timeout).toList ++ "s".toList

/-- `run_krt_timed` from the script: turn the observable behavior of the
external execution into a `StageResult` plus the optionally captured
stdout.  Total by construction: timeout expiry and exceptions are folded
into ordinary outcomes, never re-raised. -/
def run_krt_timed (timeout : Rat) (capture_stdout : Bool) (b : ExecBehavior) :
    StageResult × Option (List Char) :=
  match b with
  | .completed rc out err elapsed =>
    let success : Bool := rc == 0
    let stdout_content : Option (List Char) :=
      if capture_stdout && !out.isEmpty then some out else none
    let error_msg0 : Option (List Char) :=
      if !err.isEmpty then some ((pyStrip err).take 200) else none
    let error_msg : Option (List Char) :=
      if !out.isEmpty && !success then some ((pyStrip out).take 200) else error_msg0
    (⟨success, elapsed, false,
      if !success then error_msg else none,
      if !out.isEmpty then out.length else 0⟩,
     stdout_content)
  | .timedOut elapsed =>
    (⟨false, elapsed, true, some (timeoutMessage timeout), 0⟩, none)
  | .raised msg elapsed =>
    (⟨false, elapsed, false, some (msg.take 200), 0⟩, none)

/-- `pathlib`'s `Path.suffix` of a final path component: the part from the
last dot, provided that dot is neither the first character nor the last. -/
def pathSuffix (name : List Char) : List Char :=
  let rev := name.reverse
  let afterDotRev := rev.takeWhile (fun c => c != '.')
  if afterDotRev.length == rev.length then []
  else if afterDotRev.length == 0 then []
  else if afterDotRev.length == rev.length - 1 then []
  else '.' :: afterDotRev.reverse

/-- `src.suffix.lower()` (the names routed here are ASCII). -/
def lowerSuffix (name : List Char) : List Char :=
  (pathSuffix name).map Char.toLower

/-- The three destination stores of the output router. -/
inductive StoreDir where
  | trace
  | replay
  | misc
deriving DecidableEq

/-- Result of `move_to_output_dir`: the source was absent (`None` in the
script), or the file was moved into a store keeping its base name, or its
path was returned unchanged. -/
inductive MoveResult where
  | noFile
  | moved (dest : StoreDir) (name : List Char)
  | unchanged (name : List Char)
deriving DecidableEq

/-- `move_to_output_dir` from the script: route by lower-cased suffix. -/
def move_to_output_dir (srcExists : Bool) (srcName : List Char) : MoveResult :=
  if !srcExists then .noFile
  else
    let sfx := lowerSuffix srcName
    if sfx = ".trace".toList then .moved .trace srcName
    else if sfx = ".replay".toList then .moved .replay srcName
    else if sfx = [] then .moved .misc srcName
    else .unchanged srcName

/-- `categorize_replay_error` from the script.  Absence of error text
(`None` or the empty string, per Python truthiness) is decided first. -/
def categorize_replay_error (error : Option (List Char)) (trace_size : Nat) :
    String :=
  if !pyTruthyStr error then
    if trace_size ≤ 10 then "EMPTY_TRACE" else "NO_OUTPUT"
  else
    let e := error.getD []
    if containsSub "GOALS STACK OVERFLOW".toList e then "STACK_OVERFLOW"
    else if containsSub "missing atomic symbol".toList e then "PARSE_ERROR"
    else if containsSub "Timeout".toList e then "TIMEOUT"
    else "OTHER"

/-- `FileResult` from the script. -/
structure FileResult where
  filename : List Char
  pp : Option StageResult := none
  replay : Option StageResult := none
  result : List Char := "UNKNOWN".toList
deriving DecidableEq

/-- Everything `process_but_file` observes for one input file: the behavior
of the two external executions, the state of the capture artifact (trace
file) right after stage 1 (`none` when absent, otherwise its size), and the
content of the side-effect result-flag file if present. -/
structure PipelineEnv where
  s1 : ExecBehavior
  traceSize : Option Nat
  resContent : Option (List Char)
  s2 : ExecBehavior
deriving DecidableEq

/-- The per-file record returned by the pipeline, together with the
file-system effects it performed, made explicit. -/
structure PipelineRun where
  fr : FileResult
  stage2Ran : Bool
  replayGoalWritten : Bool
  traceDeleted : Bool
  traceMove : Option MoveResult
  replayWritten : Bool
  replayMove : Option MoveResult
deriving DecidableEq

/-- Default stage-1 validation error, `"No trace generated"`. -/
def noTraceMsg : List Char := "No trace generated".toList

/-- Default stage-2 validation error, `"No replay output"`. -/
def noReplayMsg : List Char := "No replay output".toList

/-- The byte-order mark removed from the result-flag file's text. -/
def bom : Char := '\uFEFF'

/-- The stage-2 validation test `stdout and len(stdout) > 10`. -/
def stdoutLongEnough : Option (List Char) → Bool
  | some s => decide (10 < s.length)
  | none => false

/-- Stage-1 post-hoc validation (lines 449-461 of the script): a capture
artifact that is missing or empty overrides `success` to `false`, setting
the default error only when none was recorded; when the artifact exists its
size is recorded into the output-size field. -/
def stage1_validated (pp0 : StageResult) (traceSize : Option Nat) : StageResult :=
  let traceOk : Bool :=
    match traceSize with
    | some n => n != 0
    | none => false
  let pp1 :=
    if !traceOk then
      { pp0 with
          success := false,
          error := if !pyTruthyStr pp0.error then some noTraceMsg else pp0.error }
    else pp0
  match traceSize with
  | some n => { pp1 with output_size := n }
  | none => pp1

/-- Stage-2 post-hoc validation (lines 487-495 of the script): captured
stdout longer than 10 characters forces `success := true` and records the
stdout length; otherwise `success := false` with the default error if none
was recorded. -/
def stage2_validated (rp0 : StageResult) (stdoutOpt : Option (List Char)) :
    StageResult :=
  if stdoutLongEnough stdoutOpt then
    { rp0 with output_size := (stdoutOpt.getD []).length, success := true }
  else
    { rp0 with
        success := false,
        error := if !pyTruthyStr rp0.error then some noReplayMsg else rp0.error }

/-- `process_but_file` from the script, for a given environment: run stage
1, validate the capture artifact (existence and non-zero size override the
exit status), read the result-flag file, record the artifact size, stop and
delete the artifact on failure; otherwise route the artifact, run stage 2
with stdout capture, validate by stdout length, write and route the replay
output on success, and clean up. -/
def process_but_file (stem : List Char) (pp_timeout replay_timeout : Rat)
    (env : PipelineEnv) : PipelineRun :=
  let pp0 := (run_krt_timed pp_timeout false env.s1).1
  let resultLabel : List Char :=
    match env.resContent with
    | some txt => (pyStrip txt).filter (fun c => c != bom)
    | none => "UNKNOWN".toList
  let pp2 := stage1_validated pp0 env.traceSize
  if !pp2.success then
    { fr := { filename := stem ++ ".but".toList, pp := some pp2, replay := none,
              result := resultLabel },
      stage2Ran := false, replayGoalWritten := false,
      traceDeleted := env.traceSize.isSome,
      traceMove := none, replayWritten := false, replayMove := none }
  else
    let traceMv := move_to_output_dir true (stem ++ ".trace".toList)
    let pr2 := run_krt_timed replay_timeout true env.s2
    let rp1 := stage2_validated pr2.1 pr2.2
    { fr := { filename := stem ++ ".but".toList, pp := some pp2, replay := some rp1,
              result := resultLabel },
      stage2Ran := true, replayGoalWritten := true,
      traceDeleted := false,
      traceMove := some traceMv,
      replayWritten := stdoutLongEnough pr2.2,
      replayMove :=
        if stdoutLongEnough pr2.2 then
          some (move_to_output_dir true (stem ++ ".replay".toList))
        else none }

/-- The per-file test of `create_replay_failures_dir`: a file is a
candidate for the failure archive exactly when stage 1 succeeded and stage
2 did not (the archive step additionally requires the routed trace file to
exist). -/
def archive_candidate (fr : FileResult) : Bool :=
  (match fr.pp with | some p => p.success | none => false) &&
  !(match fr.replay with | some r => r.success | none => false)

/-- `v` disagrees with `pat` at some position inside `v`, so no match of a
pattern opening with `pat` can start here, whatever follows `v`. -/
def failsFast (pat v : List Char) : Bool :=
  (pat.zip v).any fun ab => ab.1 != ab.2

/-- Every non-empty suffix of `s` either is at least as long as `pat` or
disagrees with `pat` inside `s`; then no occurrence of `pat` in `s ++ t`
straddles the boundary. -/
def spanFree (pat s : List Char) : Bool :=
  s.tails.all fun v => v.isEmpty || decide (pat.length ≤ v.length) || failsFast pat v

theorem isPrefixOf_append_left (p s t : List Char)
    (h : p.isPrefixOf s = true) : p.isPrefixOf (s ++ t) = true := by
  simp at h ⊢
  exact h.trans (List.prefix_append s t)

theorem isPrefixOf_trans (p q s : List Char) (h1 : p.isPrefixOf q = true)
    (h2 : q.isPrefixOf s = true) : p.isPrefixOf s = true := by
  simp at h1 h2 ⊢
  exact h1.trans h2

theorem not_isPrefixOf_append_of_failsFast (pat v t : List Char)
    (h : failsFast pat v = true) : pat.isPrefixOf (v ++ t) = false := by
  induction pat generalizing v with
  | nil => simp [failsFast] at h
  | cons a as ih =>
    cases v with
    | nil => simp [failsFast] at h
    | cons c cs =>
      simp only [failsFast, List.zip_cons_cons, List.any_cons, Bool.or_eq_true] at h
      rcases h with h | h
      · have hac : (a == c) = false := by
          cases hb : a == c
          · rfl
          · rw [bne, hb] at h
            exact absurd h (by simp)
        simp [List.cons_append, List.isPrefixOf_cons₂, hac]
      · have hr := ih cs h
        simp [List.cons_append, List.isPrefixOf_cons₂, hr]

theorem not_isPrefixOf_of_failsFast (pat v : List Char)
    (h : failsFast pat v = true) : pat.isPrefixOf v = false := by
  have hr := not_isPrefixOf_append_of_failsFast pat v [] h
  simpa using hr

theorem isPrefixOf_append_of_le (pat v t : List Char)
    (h : pat.length ≤ v.length) :
    pat.isPrefixOf (v ++ t) = pat.isPrefixOf v := by
  induction pat generalizing v with
  | nil => simp
  | cons a as ih =>
    cases v with
    | nil => simp at h
    | cons c cs =>
      simp only [List.cons_append, List.isPrefixOf_cons₂]
      rw [ih cs (Nat.le_of_succ_le_succ h)]

theorem dropPrefixCnt_none_iff (p s : List Char) :
    dropPrefixCnt p s = none ↔ p.isPrefixOf s = false := by
  induction p generalizing s with
  | nil => simp [dropPrefixCnt]
  | cons a as ih =>
    cases s with
    | nil => simp [dropPrefixCnt]
    | cons c cs =>
      simp only [dropPrefixCnt, List.isPrefixOf_cons₂]
      by_cases hac : (a == c) = true
      · simp only [hac, if_true, Bool.true_and]
        cases hd : dropPrefixCnt as cs with
        | none => simp [(ih cs).mp hd]
        | some x =>
          have hpre : as.isPrefixOf cs = true := by
            cases hb : as.isPrefixOf cs
            · exact absurd hd (by simp [(ih cs).mpr hb])
            · rfl
          simp [hpre]
      · have hac' : (a == c) = false := by
          cases hb : a == c
          · rfl
          · exact absurd hb hac
        simp [hac']

theorem matchTypeOnLen_none (s : List Char)
    (h : typeMarker.isPrefixOf s = false) : matchTypeOnLen s = none := by
  have hd : dropPrefixCnt typeMarker s = none := (dropPrefixCnt_none_iff _ _).mpr h
  simp [matchTypeOnLen, hd]

theorem matchFileOnLen_none (s : List Char)
    (h : fileMarkerQ.isPrefixOf s = false) : matchFileOnLen s = none := by
  have hd : dropPrefixCnt fileMarkerQ s = none := (dropPrefixCnt_none_iff _ _).mpr h
  simp [matchFileOnLen, hd]

theorem matchFileOnLen_none_of_not_contains (s : List Char)
    (h : containsSub fileMarker s = false) : matchFileOnLen s = none := by
  apply matchFileOnLen_none
  cases hq : fileMarkerQ.isPrefixOf s with
  | false => rfl
  | true =>
    exfalso
    have hm : fileMarker.isPrefixOf s = true :=
      isPrefixOf_trans fileMarker fileMarkerQ s (by decide) hq
    cases s with
    | nil => exact absurd hm (by decide)
    | cons c cs => simp [containsSub, hm] at h

theorem or_eq_false_split {a b : Bool} (h : (a || b) = false) :
    a = false ∧ b = false := by
  cases a <;> cases b <;> simp_all

theorem stripGo_eq_self (s : List Char)
    (h : containsSub typeMarker s = false) : stripGo 0 s = s := by
  induction s with
  | nil => rfl
  | cons c cs ih =>
    have hsplit := or_eq_false_split (a := typeMarker.isPrefixOf (c :: cs))
      (b := containsSub typeMarker cs) (by simpa only [containsSub] using h)
    have hm : matchTypeOnLen (c :: cs) = none := matchTypeOnLen_none _ hsplit.1
    simp [stripGo, hm, ih hsplit.2]

theorem replaceGo_eq_self (rpl s : List Char)
    (h : containsSub fileMarker s = false) : replaceGo rpl 0 s = s := by
  induction s with
  | nil => rfl
  | cons c cs ih =>
    have hsplit := or_eq_false_split (a := fileMarker.isPrefixOf (c :: cs))
      (b := containsSub fileMarker cs) (by simpa only [containsSub] using h)
    have hm : matchFileOnLen (c :: cs) = none := by
      apply matchFileOnLen_none_of_not_contains
      simp [containsSub, hsplit.1, hsplit.2]
    simp [replaceGo, hm, ih hsplit.2]

theorem containsSub_append_left (pat s t : List Char)
    (h : containsSub pat s = true) : containsSub pat (s ++ t) = true := by
  induction s with
  | nil =>
    have hp : pat = [] := by
      cases pat with
      | nil => rfl
      | cons a as => exact absurd h (by simp [containsSub])
    subst hp
    cases t <;> simp [containsSub]
  | cons c cs ih =>
    have h' : (pat.isPrefixOf (c :: cs) || containsSub pat cs) = true := by
      simpa only [containsSub] using h
    rw [List.cons_append]
    simp only [containsSub]
    apply Bool.or_eq_true_iff.mpr
    rcases Bool.or_eq_true_iff.mp h' with h1 | h1
    · left
      have h2 := isPrefixOf_append_left pat (c :: cs) t h1
      rwa [List.cons_append] at h2
    · right
      exact ih h1

theorem countSub_eq_zero (pat s : List Char)
    (h : containsSub pat s = false) : countSub pat s = 0 := by
  induction s with
  | nil =>
    have h' : pat.isPrefixOf [] = false := by simpa only [containsSub] using h
    simp [countSub, h']
  | cons c cs ih =>
    have hsplit := or_eq_false_split (a := pat.isPrefixOf (c :: cs))
      (b := containsSub pat cs) (by simpa only [containsSub] using h)
    simp [countSub, hsplit.1, ih hsplit.2]

theorem countSub_append (pat s t : List Char) (hp : pat ≠ [])
    (h : spanFree pat s = true) :
    countSub pat (s ++ t) = countSub pat s + countSub pat t := by
  induction s with
  | nil =>
    cases pat with
    | nil => exact absurd rfl hp
    | cons a as => simp [countSub]
  | cons c cs ih =>
    have hh := h
    simp only [spanFree, List.tails_cons, List.all_cons, Bool.and_eq_true] at hh
    have hhead := hh.1
    have htail : spanFree pat cs = true := by
      simp only [spanFree]
      exact hh.2
    have hstep : pat.isPrefixOf (c :: cs ++ t) = pat.isPrefixOf (c :: cs) := by
      rcases Bool.or_eq_true_iff.mp hhead with h1 | h1
      · rcases Bool.or_eq_true_iff.mp h1 with h2 | h2
        · simp [List.isEmpty] at h2
        · exact isPrefixOf_append_of_le pat (c :: cs) t (of_decide_eq_true h2)
      · rw [not_isPrefixOf_append_of_failsFast pat (c :: cs) t h1,
          not_isPrefixOf_of_failsFast pat (c :: cs) h1]
    calc countSub pat ((c :: cs) ++ t)
        = (if pat.isPrefixOf (c :: cs ++ t) then 1 else 0) + countSub pat (cs ++ t) := by
          simp [countSub]
      _ = (if pat.isPrefixOf (c :: cs) then 1 else 0) +
            (countSub pat cs + countSub pat t) := by
          rw [hstep, ih htail]
      _ = countSub pat (c :: cs) + countSub pat t := by
          simp [countSub, Nat.add_assoc]

theorem containsSub_append_right (pat x t : List Char)
    (h : containsSub pat t = true) : containsSub pat (x ++ t) = true := by
  induction x with
  | nil => simpa using h
  | cons c cs ih =>
    rw [List.cons_append]
    simp only [containsSub]
    exact Bool.or_eq_true_iff.mpr (Or.inr ih)

theorem containsSub_self_append (p y : List Char) : containsSub p (p ++ y) = true := by
  cases p with
  | nil => cases y <;> simp [containsSub]
  | cons a as =>
    have h : (a :: as).isPrefixOf ((a :: as) ++ y) = true := by simp
    rw [List.cons_append]
    simp only [containsSub]
    apply Bool.or_eq_true_iff.mpr
    left
    rwa [List.cons_append] at h

theorem process_pp_eq (stem : List Char) (ppT rT : Rat) (env : PipelineEnv) :
    (process_but_file stem ppT rT env).fr.pp
      = some (stage1_validated (run_krt_timed ppT false env.s1).1 env.traceSize) := by
  simp only [process_but_file]
  split <;> rfl

theorem process_stage2Ran_eq (stem : List Char) (ppT rT : Rat) (env : PipelineEnv) :
    (process_but_file stem ppT rT env).stage2Ran
      = (stage1_validated (run_krt_timed ppT false env.s1).1 env.traceSize).success := by
  cases hb : (stage1_validated (run_krt_timed ppT false env.s1).1 env.traceSize).success <;>
    simp [process_but_file, hb]

theorem process_replay_eq (stem : List Char) (ppT rT : Rat) (env : PipelineEnv) :
    (process_but_file stem ppT rT env).fr.replay
      = (if (stage1_validated (run_krt_timed ppT false env.s1).1 env.traceSize).success then
          some (stage2_validated (run_krt_timed rT true env.s2).1
            (run_krt_timed rT true env.s2).2)
        else none) := by
  cases hb : (stage1_validated (run_krt_timed ppT false env.s1).1 env.traceSize).success <;>
    simp [process_but_file, hb]

theorem process_replayGoal_eq (stem : List Char) (ppT rT : Rat) (env : PipelineEnv) :
    (process_but_file stem ppT rT env).replayGoalWritten
      = (stage1_validated (run_krt_timed ppT false env.s1).1 env.traceSize).success := by
  cases hb : (stage1_validated (run_krt_timed ppT false env.s1).1 env.traceSize).success <;>
    simp [process_but_file, hb]

theorem process_traceMove_eq (stem : List Char) (ppT rT : Rat) (env : PipelineEnv) :
    (process_but_file stem ppT rT env).traceMove
      = (if (stage1_validated (run_krt_timed ppT false env.s1).1 env.traceSize).success then
          some (move_to_output_dir true (stem ++ ".trace".toList))
        else none) := by
  cases hb : (stage1_validated (run_krt_timed ppT false env.s1).1 env.traceSize).success <;>
    simp [process_but_file, hb]

theorem process_traceDeleted_eq (stem : List Char) (ppT rT : Rat) (env : PipelineEnv) :
    (process_but_file stem ppT rT env).traceDeleted
      = (if (stage1_validated (run_krt_timed ppT false env.s1).1 env.traceSize).success then
          false
        else env.traceSize.isSome) := by
  cases hb : (stage1_validated (run_krt_timed ppT false env.s1).1 env.traceSize).success <;>
    simp [process_but_file, hb]

theorem process_replayWritten_eq (stem : List Char) (ppT rT : Rat) (env : PipelineEnv) :
    (process_but_file stem ppT rT env).replayWritten
      = ((stage1_validated (run_krt_timed ppT false env.s1).1 env.traceSize).success &&
          stdoutLongEnough (run_krt_timed rT true env.s2).2) := by
  cases hb : (stage1_validated (run_krt_timed ppT false env.s1).1 env.traceSize).success <;>
    simp [process_but_file, hb]

theorem process_replayMove_eq (stem : List Char) (ppT rT : Rat) (env : PipelineEnv) :
    (process_but_file stem ppT rT env).replayMove
      = (if (stage1_validated (run_krt_timed ppT false env.s1).1 env.traceSize).success &&
            stdoutLongEnough (run_krt_timed rT true env.s2).2 then
          some (move_to_output_dir true (stem ++ ".replay".toList))
        else none) := by
  cases hb : (stage1_validated (run_krt_timed ppT false env.s1).1 env.traceSize).success <;>
    simp [process_but_file, hb]

theorem stage1_validated_success (pp0 : StageResult) (tsz : Option Nat)
    (h : (stage1_validated pp0 tsz).success = true) :
    ∃ n, tsz = some n ∧ n ≠ 0 ∧ pp0.success = true := by
  cases tsz with
  | none => simp [stage1_validated] at h
  | some n =>
    by_cases hn : n = 0
    · subst hn
      simp [stage1_validated] at h
    · have hok : (n != 0) = true := by simpa using hn
      refine ⟨n, rfl, hn, ?_⟩
      simpa [stage1_validated, hok] using h

theorem stage1_validated_fail (pp0 : StageResult) (tsz : Option Nat)
    (h : tsz = none ∨ tsz = some 0) :
    (stage1_validated pp0 tsz).success = false ∧
    (pyTruthyStr pp0.error = false →
      (stage1_validated pp0 tsz).error = some noTraceMsg) ∧
    (pyTruthyStr pp0.error = true →
      (stage1_validated pp0 tsz).error = pp0.error) := by
  rcases h with h | h <;> subst h <;>
    cases he : pyTruthyStr pp0.error <;> simp [stage1_validated, he]

theorem stage1_validated_size (pp0 : StageResult) (n : Nat) (tsz : Option Nat)
    (h : tsz = some n) : (stage1_validated pp0 tsz).output_size = n := by
  subst h
  simp [stage1_validated]

theorem stage1_validated_timeout (pp0 : StageResult) (tsz : Option Nat) :
    (stage1_validated pp0 tsz).timeout = pp0.timeout := by
  cases tsz <;> simp only [stage1_validated] <;> split <;> rfl

theorem stage2_validated_success (rp0 : StageResult) (o : Option (List Char)) :
    (stage2_validated rp0 o).success = stdoutLongEnough o := by
  cases hb : stdoutLongEnough o <;> simp [stage2_validated, hb]

theorem stage2_validated_size (rp0 : StageResult) (o : Option (List Char))
    (h : stdoutLongEnough o = true) :
    (stage2_validated rp0 o).output_size = (o.getD []).length := by
  simp [stage2_validated, h]

theorem stage2_validated_err (rp0 : StageResult) (o : Option (List Char))
    (h : stdoutLongEnough o = false) :
    (pyTruthyStr rp0.error = false →
      (stage2_validated rp0 o).error = some noReplayMsg) ∧
    (pyTruthyStr rp0.error = true →
      (stage2_validated rp0 o).error = rp0.error) := by
  cases he : pyTruthyStr rp0.error <;> simp [stage2_validated, h, he]

theorem stage2_validated_timeout (rp0 : StageResult) (o : Option (List Char)) :
    (stage2_validated rp0 o).timeout = rp0.timeout := by
  cases hb : stdoutLongEnough o <;> simp [stage2_validated, hb]

theorem run_timeout_not_success (t : Rat) (c : Bool) (b : ExecBehavior)
    (h : (run_krt_timed t c b).1.timeout = true) :
    (run_krt_timed t c b).1.success = false := by
  cases b <;> simp [run_krt_timed] at h ⊢

theorem run_timeout_no_stdout (t : Rat) (c : Bool) (b : ExecBehavior)
    (h : (run_krt_timed t c b).1.timeout = true) :
    (run_krt_timed t c b).2 = none := by
  cases b <;> simp [run_krt_timed] at h ⊢

theorem convert_prepend (content T R : List Char)
    (h1 : containsSub typeMarker content = false)
    (h2 : containsSub fileMarker content = false) :
    convert_but_to_goal content T R = fileOnRepl T R ++ sep ++ content := by
  have hs : stripTypeOn content = content := stripGo_eq_self content h1
  simp only [convert_but_to_goal, hs, h2, Bool.false_eq_true, if_false]

theorem dropPrefixCnt_self (p t : List Char) :
    dropPrefixCnt p (p ++ t) = some (p.length, t) := by
  induction p with
  | nil => simp [dropPrefixCnt]
  | cons a as ih => simp [dropPrefixCnt, ih]

theorem spanCount_stop (pred : Char → Bool) (x : List Char) (c : Char)
    (t : List Char) (hx : x.all pred = true) (hc : pred c = false) :
    spanCount pred (x ++ c :: t) = (x.length, c :: t) := by
  induction x with
  | nil => simp [spanCount, hc]
  | cons a as ih =>
    simp only [List.all_cons, Bool.and_eq_true] at hx
    simp [spanCount, hx.1, ih hx.2]

theorem stripGo_skip (A B : List Char) : stripGo A.length (A ++ B) = stripGo 0 B := by
  induction A with
  | nil => rfl
  | cons a as ih =>
    simp only [List.length_cons, List.cons_append]
    rw [show stripGo (as.length + 1) (a :: (as ++ B)) = stripGo as.length (as ++ B)
      from rfl]
    exact ih

theorem replaceGo_skip (rpl A B : List Char) :
    replaceGo rpl A.length (A ++ B) = replaceGo rpl 0 B := by
  induction A with
  | nil => rfl
  | cons a as ih =>
    simp only [List.length_cons, List.cons_append]
    rw [show replaceGo rpl (as.length + 1) (a :: (as ++ B))
      = replaceGo rpl as.length (as ++ B) from rfl]
    exact ih

theorem stripGo_cons_match (c : Char) (cs : List Char) (len : Nat)
    (h : matchTypeOnLen (c :: cs) = some len) :
    stripGo 0 (c :: cs) = stripGo (len - 1) cs := by
  simp [stripGo, h]

theorem replaceGo_cons_match (rpl : List Char) (c : Char) (cs : List Char)
    (len : Nat) (h : matchFileOnLen (c :: cs) = some len) :
    replaceGo rpl 0 (c :: cs) = rpl ++ replaceGo rpl (len - 1) cs := by
  simp [replaceGo, h]

theorem replaceGo_cons_nomatch (rpl : List Char) (c : Char) (cs : List Char)
    (h : matchFileOnLen (c :: cs) = none) :
    replaceGo rpl 0 (c :: cs) = c :: replaceGo rpl 0 cs := by
  simp [replaceGo, h]

theorem containsSub_of_head (pat s : List Char) (hne : pat ≠ [])
    (hp : pat.isPrefixOf s = true) : containsSub pat s = true := by
  cases s with
  | nil =>
    cases pat with
    | nil => exact absurd rfl hne
    | cons a as => simp at hp
  | cons c cs => simp [containsSub, hp]

theorem replaceGo_eq_self_of_no_clause (rpl s : List Char)
    (h : hasFileOnClause s = false) : replaceGo rpl 0 s = s := by
  induction s with
  | nil => rfl
  | cons c cs ih =>
    have hh := h
    simp only [hasFileOnClause, List.tails_cons, List.any_cons] at hh
    have hsplit := or_eq_false_split (a := (matchFileOnLen (c :: cs)).isSome)
      (b := cs.tails.any fun v => (matchFileOnLen v).isSome) hh
    have hm : matchFileOnLen (c :: cs) = none := by
      have h1 := hsplit.1
      cases hx : matchFileOnLen (c :: cs) with
      | none => rfl
      | some l =>
        rw [hx] at h1
        simp at h1
    have htail : hasFileOnClause cs = false := hsplit.2
    simp [replaceGo, hm, ih htail]

theorem matchTypeOnLen_clause (x : List Char) (c : Char) (Y : List Char)
    (hx1 : x ≠ []) (hx2 : x.all (fun ch => ch != ')') = true)
    (hc : pyIsSpace c = false) :
    matchTypeOnLen (typeOnFlag x ++ sep ++ (c :: Y)) = some (x.length + 17) := by
  have hexp : typeOnFlag x ++ sep ++ (c :: Y)
      = typeMarker ++ (x ++ (')' :: ')' :: ' ' :: '&' :: ' ' :: c :: Y)) := by
    simp [typeOnFlag, typeMarker, sep]
  have hspan := spanCount_stop (fun ch => ch != ')') x ')'
    (')' :: ' ' :: '&' :: ' ' :: c :: Y) hx2 (by decide)
  have hlen : (x.length == 0) = false := by
    have hx0 : x.length ≠ 0 := by
      intro h0
      exact hx1 (List.length_eq_zero.mp h0)
    simpa using hx0
  have hdp : dropPrefixCnt "))".toList (')' :: ')' :: ' ' :: '&' :: ' ' :: c :: Y)
      = some (2, ' ' :: '&' :: ' ' :: c :: Y) := rfl
  have hws1 : spanCount pyIsSpace (' ' :: '&' :: ' ' :: c :: Y)
      = (1, '&' :: ' ' :: c :: Y) := rfl
  have hws2 : spanCount pyIsSpace (' ' :: c :: Y) = (1, c :: Y) := by
    have hsp : pyIsSpace ' ' = true := by decide
    simp [spanCount, hsp, hc]
  rw [hexp]
  simp only [matchTypeOnLen, dropPrefixCnt_self, hspan, hlen, hdp, hws1, hws2,
    Bool.false_eq_true, if_false]
  have htm : typeMarker.length = 12 := by decide
  rw [htm]
  refine congrArg some ?_
  omega

theorem matchFileOnLen_clause (r Y : List Char) (hr1 : r ≠ [])
    (hr2 : r.all (fun ch => ch != '"') = true) :
    matchFileOnLen (fileOnFlag r ++ Y) = some (r.length + 16) := by
  have hexp : fileOnFlag r ++ Y = fileMarkerQ ++ (r ++ ('"' :: ')' :: ')' :: Y)) := by
    simp [fileOnFlag, fileMarkerQ]
  have hspan := spanCount_stop (fun ch => ch != '"') r '"' (')' :: ')' :: Y) hr2
    (by decide)
  have hlen : (r.length == 0) = false := by
    have hr0 : r.length ≠ 0 := by
      intro h0
      exact hr1 (List.length_eq_zero.mp h0)
    simpa using hr0
  have hdp : dropPrefixCnt "\"))".toList ('"' :: ')' :: ')' :: Y) = some (3, Y) := rfl
  rw [hexp]
  simp only [matchFileOnLen, dropPrefixCnt_self, hspan, hlen, hdp,
    Bool.false_eq_true, if_false]
  have hfm : fileMarkerQ.length = 13 := by decide
  rw [hfm]
  refine congrArg some ?_
  omega

theorem stripGo_typeOn_clause (x : List Char) (c : Char) (Y : List Char)
    (hx1 : x ≠ []) (hx2 : x.all (fun ch => ch != ')') = true)
    (hc : pyIsSpace c = false) :
    stripGo 0 (typeOnFlag x ++ sep ++ (c :: Y)) = stripGo 0 (c :: Y) := by
  have hm := matchTypeOnLen_clause x c Y hx1 hx2 hc
  have hexp : typeOnFlag x ++ sep ++ (c :: Y)
      = 'F' :: (("lag(TypeOn(".toList ++ x ++ [')', ')', ' ', '&', ' ']) ++ (c :: Y)) := by
    simp [typeOnFlag, sep]
  rw [hexp] at hm ⊢
  rw [stripGo_cons_match _ _ _ hm]
  have hA : ("lag(TypeOn(".toList ++ x ++ [')', ')', ' ', '&', ' ']).length
      = x.length + 17 - 1 := by
    simp
  rw [← hA, stripGo_skip]

theorem replaceGo_fileOn_clause (rpl r Y : List Char) (hr1 : r ≠ [])
    (hr2 : r.all (fun ch => ch != '"') = true) :
    replaceGo rpl 0 (fileOnFlag r ++ Y) = rpl ++ replaceGo rpl 0 Y := by
  have hm := matchFileOnLen_clause r Y hr1 hr2
  have hexp : fileOnFlag r ++ Y
      = 'F' :: (("lag(FileOn(\"".toList ++ r ++ ['"', ')', ')']) ++ Y) := by
    simp [fileOnFlag]
  rw [hexp] at hm ⊢
  rw [replaceGo_cons_match _ _ _ _ hm]
  have hA : ("lag(FileOn(\"".toList ++ r ++ ['"', ')', ')']).length
      = r.length + 16 - 1 := by
    simp
  rw [← hA, replaceGo_skip]

theorem convert_retranslate_g1 (P : List Char)
    (h1 : containsSub typeMarker P = false)
    (h2 : containsSub fileMarker P = false) :
    convert_but_to_goal
        ("Flag(TraceOn(\"g1.trace\")) & Flag(FileOn(\"g1.res\")) & ".toList ++ P)
        "g1.trace".toList "g1.res".toList
      = "Flag(TraceOn(\"g1.trace\")) & Flag(TraceOn(\"g1.trace\")) & Flag(FileOn(\"g1.res\")) & ".toList
          ++ P := by
  have hstrip : stripTypeOn
        ("Flag(TraceOn(\"g1.trace\")) & Flag(FileOn(\"g1.res\")) & ".toList ++ P)
      = "Flag(TraceOn(\"g1.trace\")) & Flag(FileOn(\"g1.res\")) & ".toList ++ P := by
    have base : stripGo 0
          ("Flag(TraceOn(\"g1.trace\")) & Flag(FileOn(\"g1.res\")) & ".toList ++ P)
        = "Flag(TraceOn(\"g1.trace\")) & Flag(FileOn(\"g1.res\")) & ".toList ++ stripGo 0 P := rfl
    rw [stripTypeOn, base, stripGo_eq_self P h1]
  have hcont : containsSub fileMarker
      ("Flag(TraceOn(\"g1.trace\")) & Flag(FileOn(\"g1.res\")) & ".toList ++ P) = true :=
    containsSub_append_left fileMarker
      "Flag(TraceOn(\"g1.trace\")) & Flag(FileOn(\"g1.res\")) & ".toList P (by decide)
  have hrepl : ∀ rpl : List Char,
      replaceGo rpl 0 ("Flag(TraceOn(\"g1.trace\")) & Flag(FileOn(\"g1.res\")) & ".toList ++ P)
        = "Flag(TraceOn(\"g1.trace\")) & ".toList ++ rpl ++ (" & ".toList ++ replaceGo rpl 0 P) :=
    fun _ => rfl
  simp only [convert_but_to_goal, hstrip, hcont, if_true, replaceFileOn]
  rw [hrepl, replaceGo_eq_self _ P h2]
  rfl

theorem containsSub_fileMarker_clause (r W : List Char) :
    containsSub fileMarker (fileOnFlag r ++ W) = true := by
  apply containsSub_of_head _ _ (by decide)
  have hexp : fileOnFlag r ++ W = fileMarkerQ ++ (r ++ ("\"))".toList ++ W)) := by
    simp [fileOnFlag, fileMarkerQ]
  rw [hexp]
  exact isPrefixOf_append_left fileMarker fileMarkerQ _ (by decide)

theorem replaceFileOn_clause_sep (rpl r P : List Char) (hr1 : r ≠ [])
    (hr2 : r.all (fun ch => ch != '"') = true)
    (hP : containsSub fileMarker P = false) :
    replaceFileOn rpl (fileOnFlag r ++ sep ++ P) = rpl ++ sep ++ P := by
  rw [replaceFileOn, List.append_assoc,
    replaceGo_fileOn_clause rpl r (sep ++ P) hr1 hr2]
  have hsep : sep ++ P = ' ' :: '&' :: ' ' :: P := rfl
  rw [hsep]
  rw [replaceGo_cons_nomatch rpl ' ' ('&' :: ' ' :: P) rfl,
    replaceGo_cons_nomatch rpl '&' (' ' :: P) rfl,
    replaceGo_cons_nomatch rpl ' ' P rfl,
    replaceGo_eq_self rpl P hP,
    List.append_assoc]
  rfl

theorem convert_marker_without_clause (content T R : List Char)
    (h1 : containsSub fileMarker (stripTypeOn content) = true)
    (h2 : hasFileOnClause (stripTypeOn content) = false) :
    convert_but_to_goal content T R = stripTypeOn content := by
  simp only [convert_but_to_goal, h1, if_true, replaceFileOn]
  exact replaceGo_eq_self_of_no_clause _ _ h2

theorem convert_replace_clause (x r P T R : List Char)
    (hx1 : x ≠ []) (hx2 : x.all (fun ch => ch != ')') = true)
    (hr1 : r ≠ []) (hr2 : r.all (fun ch => ch != '"') = true)
    (hreg : containsSub typeMarker (fileOnFlag r ++ sep ++ P) = false)
    (hP : containsSub fileMarker P = false) :
    convert_but_to_goal (typeOnFlag x ++ sep ++ fileOnFlag r ++ sep ++ P) T R
      = fileOnRepl T R ++ sep ++ P := by
  have hfexp : fileOnFlag r ++ sep ++ P
      = 'F' :: ("lag(FileOn(\"".toList ++ r ++ "\"))".toList ++ sep ++ P) := by
    simp [fileOnFlag]
  have hassoc : typeOnFlag x ++ sep ++ fileOnFlag r ++ sep ++ P
      = (typeOnFlag x ++ sep) ++ (fileOnFlag r ++ sep ++ P) := by
    simp [List.append_assoc]
  have hstrip : stripTypeOn (typeOnFlag x ++ sep ++ fileOnFlag r ++ sep ++ P)
      = fileOnFlag r ++ sep ++ P := by
    rw [stripTypeOn, hassoc, hfexp,
      stripGo_typeOn_clause x 'F' _ hx1 hx2 (by decide), ← hfexp]
    exact stripGo_eq_self _ hreg
  have hcont : containsSub fileMarker (fileOnFlag r ++ sep ++ P) = true := by
    rw [List.append_assoc]
    exact containsSub_fileMarker_clause r (sep ++ P)
  simp only [convert_but_to_goal, hstrip, hcont, if_true]
  exact replaceFileOn_clause_sep (fileOnRepl T R) r P hr1 hr2 hP

theorem convert_replace_clause_no_type (r P T R : List Char)
    (hr1 : r ≠ []) (hr2 : r.all (fun ch => ch != '"') = true)
    (hreg : containsSub typeMarker (fileOnFlag r ++ sep ++ P) = false)
    (hP : containsSub fileMarker P = false) :
    convert_but_to_goal (fileOnFlag r ++ sep ++ P) T R
      = fileOnRepl T R ++ sep ++ P := by
  have hstrip : stripTypeOn (fileOnFlag r ++ sep ++ P) = fileOnFlag r ++ sep ++ P :=
    stripGo_eq_self _ hreg
  have hcont : containsSub fileMarker (fileOnFlag r ++ sep ++ P) = true := by
    rw [List.append_assoc]
    exact containsSub_fileMarker_clause r (sep ++ P)
  simp only [convert_but_to_goal, hstrip, hcont, if_true]
  exact replaceFileOn_clause_sep (fileOnRepl T R) r P hr1 hr2 hP

/-- C5 counterexample: the content `Flag(FileOn(x)) & P` contains no
complete result-file clause of the shape `Flag(FileOn("..."))`, so the
claim, as stated, demands the prepend branch; but the code dispatches on
the bare substring `Flag(FileOn(`, takes the replace branch, the quoted
pattern matches nothing, and the content is returned unchanged: no
trace-flag is ever added, the content is neither rewritten nor prepended. -/
theorem c5_counterexample_marker_without_clause :
    convert_but_to_goal "Flag(FileOn(x)) & P".toList "g1.trace".toList "g1.res".toList
      = "Flag(FileOn(x)) & P".toList ∧
    containsSub traceMarker
      (convert_but_to_goal "Flag(FileOn(x)) & P".toList "g1.trace".toList "g1.res".toList)
      = false ∧
    containsSub fileMarkerQ "Flag(FileOn(x)) & P".toList = false ∧
    convert_but_to_goal "Flag(FileOn(x)) & P".toList "g1.trace".toList "g1.res".toList
      ≠ fileOnRepl "g1.trace".toList "g1.res".toList ++ sep ++ "Flag(FileOn(x)) & P".toList := by
  exact ⟨by decide, by decide, by decide, by decide⟩

/-- C5 (amended): for every input directive text and target filenames T
and R, the translator first performs the type-declaration strip (a no-op
whenever no `Flag(TypeOn(` marker occurs), then dispatches on the bare
substring `Flag(FileOn(`: when that marker is absent from the stripped
content, `Flag(TraceOn("T")) & Flag(FileOn("R")) & ` is prepended with the
stripped content following unchanged; when the marker is present, complete
result-file clauses `Flag(FileOn("..."))` are replaced by
`Flag(TraceOn("T")) & Flag(FileOn("R"))` — shown for every directive of
the documented `.but` shape `Flag(TypeOn(x)) & Flag(FileOn("r")) & P`
(arbitrary parenthesis-free non-empty body x, quote-free non-empty result
name r, marker-free remainder P), with or without the leading type clause
— but content containing the marker without any complete quoted clause is
returned unchanged, neither rewritten nor prepended.  The spec's g1
example input translates exactly as stated. -/
theorem c5_translator_contract (content x r P T R : List Char) :
    convert_but_to_goal "Flag(TypeOn(\"x\")) & Flag(FileOn(\"g1.res\")) & P".toList
        "g1.trace".toList "g1.res".toList
      = "Flag(TraceOn(\"g1.trace\")) & Flag(FileOn(\"g1.res\")) & P".toList ∧
    (containsSub typeMarker content = false → stripTypeOn content = content) ∧
    (containsSub fileMarker (stripTypeOn content) = false →
      convert_but_to_goal content T R = fileOnRepl T R ++ sep ++ stripTypeOn content) ∧
    (containsSub fileMarker (stripTypeOn content) = true →
      hasFileOnClause (stripTypeOn content) = false →
      convert_but_to_goal content T R = stripTypeOn content) ∧
    (x ≠ [] → x.all (fun ch => ch != ')') = true →
      r ≠ [] → r.all (fun ch => ch != '"') = true →
      containsSub typeMarker (fileOnFlag r ++ sep ++ P) = false →
      containsSub fileMarker P = false →
      convert_but_to_goal (typeOnFlag x ++ sep ++ fileOnFlag r ++ sep ++ P) T R
        = fileOnRepl T R ++ sep ++ P) ∧
    (r ≠ [] → r.all (fun ch => ch != '"') = true →
      containsSub typeMarker (fileOnFlag r ++ sep ++ P) = false →
      containsSub fileMarker P = false →
      convert_but_to_goal (fileOnFlag r ++ sep ++ P) T R
        = fileOnRepl T R ++ sep ++ P) := by
  refine ⟨by decide, fun h => stripGo_eq_self content h, ?_, ?_, ?_, ?_⟩
  · intro h
    simp only [convert_but_to_goal, h, Bool.false_eq_true, if_false]
  · intro h1 h2
    exact convert_marker_without_clause content T R h1 h2
  · intro hx1 hx2 hr1 hr2 hreg hP
    exact convert_replace_clause x r P T R hx1 hx2 hr1 hr2 hreg hP
  · intro hr1 hr2 hreg hP
    exact convert_replace_clause_no_type r P T R hr1 hr2 hreg hP

/-- C5 witness: the amended contract instantiated concretely: the spec's
g1 example arises from the replace-clause conjunct at body `"x"`, result
name `g1.res`, remainder `P` and targets `g1.trace`/`g1.res`; the prepend
conjunct at marker-free content; and the marker-without-clause conjunct at
the counterexample input, returned unchanged. -/
theorem c5_translator_contract_witness :
    convert_but_to_goal
        (typeOnFlag "\"x\"".toList ++ sep ++ fileOnFlag "g1.res".toList ++ sep ++ "P".toList)
        "g1.trace".toList "g1.res".toList
      = fileOnRepl "g1.trace".toList "g1.res".toList ++ sep ++ "P".toList ∧
    convert_but_to_goal "Set(x,y)".toList "t.trace".toList "t.res".toList
      = fileOnRepl "t.trace".toList "t.res".toList ++ sep ++ "Set(x,y)".toList ∧
    convert_but_to_goal "Flag(FileOn(x)) & P".toList "g1.trace".toList "g1.res".toList
      = "Flag(FileOn(x)) & P".toList := by
  refine ⟨?_, ?_, ?_⟩
  · exact (c5_translator_contract [] "\"x\"".toList "g1.res".toList "P".toList
      "g1.trace".toList "g1.res".toList).2.2.2.2.1
      (by decide) (by decide) (by decide) (by decide) (by decide) (by decide)
  · have h := (c5_translator_contract "Set(x,y)".toList [] [] []
      "t.trace".toList "t.res".toList).2.2.1 (by decide)
    exact h.trans (by decide)
  · have h := (c5_translator_contract "Flag(FileOn(x)) & P".toList [] [] []
      "g1.trace".toList "g1.res".toList).2.2.2.1 (by decide) (by decide)
    exact h.trans (by decide)

/-- C4 counterexample: translating the translator's own output for the
empty original content a second time (same target filenames) yields a
directive with TWO trace-flag clauses, not one: the claim's idempotence
fails on the code. -/
theorem c4_counterexample_duplicate_trace_flag :
    countSub traceMarker
      (convert_but_to_goal
        (convert_but_to_goal [] "g1.trace".toList "g1.res".toList)
        "g1.trace".toList "g1.res".toList) = 2 ∧
    countSub fileMarker
      (convert_but_to_goal
        (convert_but_to_goal [] "g1.trace".toList "g1.res".toList)
        "g1.trace".toList "g1.res".toList) = 1 := by
  exact ⟨by decide, by decide⟩

/-- C4 (amended): applying the translator a second time to an
already-translated directive (same target filenames, original content free
of directive markers) yields a directive with exactly ONE result-flag
clause (the last-applied one wins) but exactly TWO trace-flag clauses: the
trace flag is duplicated, so the translation is not idempotent-safe; this
holds also when the original content is empty. -/
theorem c4_retranslation_duplicates_trace_flag (P : List Char)
    (h1 : containsSub typeMarker P = false)
    (h2 : containsSub fileMarker P = false)
    (h3 : containsSub traceMarker P = false) :
    convert_but_to_goal P "g1.trace".toList "g1.res".toList
      = "Flag(TraceOn(\"g1.trace\")) & Flag(FileOn(\"g1.res\")) & ".toList ++ P ∧
    convert_but_to_goal
        (convert_but_to_goal P "g1.trace".toList "g1.res".toList)
        "g1.trace".toList "g1.res".toList
      = "Flag(TraceOn(\"g1.trace\")) & Flag(TraceOn(\"g1.trace\")) & Flag(FileOn(\"g1.res\")) & ".toList
          ++ P ∧
    countSub traceMarker (convert_but_to_goal
        (convert_but_to_goal P "g1.trace".toList "g1.res".toList)
        "g1.trace".toList "g1.res".toList) = 2 ∧
    countSub fileMarker (convert_but_to_goal
        (convert_but_to_goal P "g1.trace".toList "g1.res".toList)
        "g1.trace".toList "g1.res".toList) = 1 := by
  have hfirst : convert_but_to_goal P "g1.trace".toList "g1.res".toList
      = "Flag(TraceOn(\"g1.trace\")) & Flag(FileOn(\"g1.res\")) & ".toList ++ P := by
    rw [convert_prepend P _ _ h1 h2]
    rfl
  have hsecond := convert_retranslate_g1 P h1 h2
  refine ⟨hfirst, by rw [hfirst]; exact hsecond, ?_, ?_⟩
  · rw [hfirst, hsecond,
      countSub_append traceMarker
        "Flag(TraceOn(\"g1.trace\")) & Flag(TraceOn(\"g1.trace\")) & Flag(FileOn(\"g1.res\")) & ".toList
        P (by decide) (by decide),
      countSub_eq_zero traceMarker P h3]
    decide
  · rw [hfirst, hsecond,
      countSub_append fileMarker
        "Flag(TraceOn(\"g1.trace\")) & Flag(TraceOn(\"g1.trace\")) & Flag(FileOn(\"g1.res\")) & ".toList
        P (by decide) (by decide),
      countSub_eq_zero fileMarker P h2]
    decide

/-- C4 witness: the amended statement instantiated at the empty original
content. -/
theorem c4_retranslation_duplicates_trace_flag_witness :
    countSub traceMarker
      (convert_but_to_goal
        (convert_but_to_goal [] "g1.trace".toList "g1.res".toList)
        "g1.trace".toList "g1.res".toList) = 2 :=
  (c4_retranslation_duplicates_trace_flag [] (by decide) (by decide) (by decide)).2.2.1

/-- C1: after stage-1 validation, the recorded stage-1 outcome can be
successful only when the capture artifact exists with non-zero size at
validation time; when it is missing or empty, success is overridden to
false and the default error ("No trace generated", the message the spec
describes as "no artifact generated") is set exactly when no error was
already recorded; whenever the artifact exists its size is recorded into
the stage-1 output-size field. -/
theorem c1_stage1_validation (stem : List Char) (ppT rT : Rat)
    (env : PipelineEnv) (p : StageResult)
    (hp : (process_but_file stem ppT rT env).fr.pp = some p) :
    (p.success = true → ∃ n, env.traceSize = some n ∧ n ≠ 0) ∧
    ((env.traceSize = none ∨ env.traceSize = some 0) →
      p.success = false ∧
      (pyTruthyStr (run_krt_timed ppT false env.s1).1.error = false →
        p.error = some noTraceMsg) ∧
      (pyTruthyStr (run_krt_timed ppT false env.s1).1.error = true →
        p.error = (run_krt_timed ppT false env.s1).1.error)) ∧
    (∀ n, env.traceSize = some n → p.output_size = n) := by
  have hpe : p = stage1_validated (run_krt_timed ppT false env.s1).1 env.traceSize :=
    Option.some.inj (hp.symm.trans (process_pp_eq stem ppT rT env))
  subst hpe
  refine ⟨?_, ?_, ?_⟩
  · intro h
    obtain ⟨n, hn, hne, _⟩ := stage1_validated_success _ _ h
    exact ⟨n, hn, hne⟩
  · intro h
    exact stage1_validated_fail _ _ h
  · intro n hn
    exact stage1_validated_size _ n _ hn

/-- C1 witness: a run whose external stage-1 execution exits 0 but leaves a
zero-size artifact is validated as failed with the default error. -/
theorem c1_stage1_validation_witness :
    (process_but_file "g1".toList 60 120
        ⟨ExecBehavior.completed 0 [] [] 1, some 0, none,
          ExecBehavior.completed 0 [] [] 0⟩).fr.pp
      = some ⟨false, 1, false, some noTraceMsg, 0⟩ ∧
    StageResult.success ⟨false, 1, false, some noTraceMsg, 0⟩ = false ∧
    StageResult.error ⟨false, 1, false, some noTraceMsg, 0⟩ = some noTraceMsg := by
  have h := c1_stage1_validation "g1".toList 60 120
    ⟨ExecBehavior.completed 0 [] [] 1, some 0, none, ExecBehavior.completed 0 [] [] 0⟩
    ⟨false, 1, false, some noTraceMsg, 0⟩ (by decide)
  exact ⟨by decide, (h.2.1 (Or.inr rfl)).1, (h.2.1 (Or.inr rfl)).2.1 (by decide)⟩

/-- C2: whenever stage 2 runs, the stored stage-2 outcome is successful
exactly when the captured stdout is longer than 10 characters, regardless
of the exit code; in that case the stdout is written to the replay-output
file, its length is recorded as the output size and the file is routed to
the replay store; otherwise success is forced to false and the default
error ("No replay output") is set exactly when no error was recorded. -/
theorem c2_stage2_validation (stem : List Char) (ppT rT : Rat)
    (env : PipelineEnv)
    (h : (process_but_file stem ppT rT env).stage2Ran = true) :
    ∃ r, (process_but_file stem ppT rT env).fr.replay = some r ∧
      r.success = stdoutLongEnough (run_krt_timed rT true env.s2).2 ∧
      (stdoutLongEnough (run_krt_timed rT true env.s2).2 = true →
        r.output_size = ((run_krt_timed rT true env.s2).2.getD []).length ∧
        (process_but_file stem ppT rT env).replayWritten = true ∧
        (process_but_file stem ppT rT env).replayMove
          = some (move_to_output_dir true (stem ++ ".replay".toList))) ∧
      (stdoutLongEnough (run_krt_timed rT true env.s2).2 = false →
        r.success = false ∧
        (pyTruthyStr (run_krt_timed rT true env.s2).1.error = false →
          r.error = some noReplayMsg) ∧
        (pyTruthyStr (run_krt_timed rT true env.s2).1.error = true →
          r.error = (run_krt_timed rT true env.s2).1.error)) := by
  have hs : (stage1_validated (run_krt_timed ppT false env.s1).1 env.traceSize).success
      = true := by
    rw [process_stage2Ran_eq stem ppT rT env] at h
    exact h
  refine ⟨stage2_validated (run_krt_timed rT true env.s2).1 (run_krt_timed rT true env.s2).2,
    ?_, stage2_validated_success _ _, ?_, ?_⟩
  · rw [process_replay_eq stem ppT rT env, hs]
    simp
  · intro hso
    refine ⟨stage2_validated_size _ _ hso, ?_, ?_⟩
    · rw [process_replayWritten_eq stem ppT rT env, hs, hso]
      rfl
    · rw [process_replayMove_eq stem ppT rT env, hs, hso]
      rfl
  · intro hso
    refine ⟨?_, (stage2_validated_err _ _ hso).1, (stage2_validated_err _ _ hso).2⟩
    rw [stage2_validated_success _ _, hso]

/-- C2 witness: the spec's end-to-end scenario with a 50-byte artifact,
exit code 0 in stage 1, and a stage-2 stub that prints 200 characters to
stdout and exits 1: stage 2 is validated as succeeded, the replay output is
written and routed to the replay store, and the file is not an
archive candidate. -/
theorem c2_stage2_validation_witness :
    Option.map StageResult.success ((process_but_file "g1".toList 60 120
        ⟨ExecBehavior.completed 0 [] [] 1, some 50, some "SUCCES".toList,
          ExecBehavior.completed 1 (List.replicate 200 'x') [] 2⟩).fr.replay)
      = some true ∧
    Option.map StageResult.output_size ((process_but_file "g1".toList 60 120
        ⟨ExecBehavior.completed 0 [] [] 1, some 50, some "SUCCES".toList,
          ExecBehavior.completed 1 (List.replicate 200 'x') [] 2⟩).fr.replay)
      = some 200 ∧
    (process_but_file "g1".toList 60 120
        ⟨ExecBehavior.completed 0 [] [] 1, some 50, some "SUCCES".toList,
          ExecBehavior.completed 1 (List.replicate 200 'x') [] 2⟩).replayWritten = true ∧
    (process_but_file "g1".toList 60 120
        ⟨ExecBehavior.completed 0 [] [] 1, some 50, some "SUCCES".toList,
          ExecBehavior.completed 1 (List.replicate 200 'x') [] 2⟩).replayMove
      = some (MoveResult.moved StoreDir.replay "g1.replay".toList) ∧
    (process_but_file "g1".toList 60 120
        ⟨ExecBehavior.completed 0 [] [] 1, some 50, some "SUCCES".toList,
          ExecBehavior.completed 1 (List.replicate 200 'x') [] 2⟩).traceMove
      = some (MoveResult.moved StoreDir.trace "g1.trace".toList) ∧
    archive_candidate (process_but_file "g1".toList 60 120
        ⟨ExecBehavior.completed 0 [] [] 1, some 50, some "SUCCES".toList,
          ExecBehavior.completed 1 (List.replicate 200 'x') [] 2⟩).fr = false := by
  have h := c2_stage2_validation "g1".toList 60 120
    ⟨ExecBehavior.completed 0 [] [] 1, some 50, some "SUCCES".toList,
      ExecBehavior.completed 1 (List.replicate 200 'x') [] 2⟩ (by decide)
  obtain ⟨r, hr, hsucc, hlong, _⟩ := h
  have hso : stdoutLongEnough
      (run_krt_timed 120 true (ExecBehavior.completed 1 (List.replicate 200 'x') [] 2)).2
      = true := by decide
  refine ⟨?_, ?_, (hlong hso).2.1, (hlong hso).2.2.trans (by decide), by decide, by decide⟩
  · rw [hr]
    simp only [Option.map_some']
    rw [hsucc]
    decide
  · rw [hr]
    simp only [Option.map_some']
    rw [(hlong hso).1]
    decide

/-- C3: the stage-2 outcome is present in a FileRun only when stage 1 was
validated as succeeded; when stage 1 did not succeed the capture artifact
is deleted (if it existed), the pipeline stops, stage 2 is never run, no
stage-2 directive is written, nothing is routed, and the replay field
stays absent. -/
theorem c3_stop_on_fail (stem : List Char) (ppT rT : Rat) (env : PipelineEnv) :
    (∀ r, (process_but_file stem ppT rT env).fr.replay = some r →
      ∃ p, (process_but_file stem ppT rT env).fr.pp = some p ∧ p.success = true) ∧
    (∀ p, (process_but_file stem ppT rT env).fr.pp = some p → p.success = false →
      (process_but_file stem ppT rT env).stage2Ran = false ∧
      (process_but_file stem ppT rT env).fr.replay = none ∧
      (process_but_file stem ppT rT env).replayGoalWritten = false ∧
      (process_but_file stem ppT rT env).traceMove = none ∧
      (env.traceSize.isSome = true →
        (process_but_file stem ppT rT env).traceDeleted = true)) := by
  constructor
  · intro r hr
    rw [process_replay_eq stem ppT rT env] at hr
    by_cases hs : (stage1_validated (run_krt_timed ppT false env.s1).1 env.traceSize).success
      = true
    · exact ⟨_, process_pp_eq stem ppT rT env, hs⟩
    · rw [if_neg (by simpa using hs)] at hr
      exact absurd hr (by simp)
  · intro p hp hfail
    have hpe : p = stage1_validated (run_krt_timed ppT false env.s1).1 env.traceSize :=
      Option.some.inj (hp.symm.trans (process_pp_eq stem ppT rT env))
    have hs : (stage1_validated (run_krt_timed ppT false env.s1).1 env.traceSize).success
        = false := by rw [← hpe]; exact hfail
    refine ⟨?_, ?_, ?_, ?_, ?_⟩
    · rw [process_stage2Ran_eq stem ppT rT env, hs]
    · rw [process_replay_eq stem ppT rT env, hs]
      simp
    · rw [process_replayGoal_eq stem ppT rT env, hs]
    · rw [process_traceMove_eq stem ppT rT env, hs]
      simp
    · intro hex
      rw [process_traceDeleted_eq stem ppT rT env, hs]
      simpa using hex

/-- C3 witness: a failing stage 1 (exit code 3, artifact present) stops the
pipeline: stage 2 never runs, the artifact is deleted, the replay field is
absent. -/
theorem c3_stop_on_fail_witness :
    (process_but_file "g1".toList 60 120
        ⟨ExecBehavior.completed 3 [] "err".toList 1, some 7, none,
          ExecBehavior.completed 0 (List.replicate 50 'y') [] 1⟩).stage2Ran = false ∧
    (process_but_file "g1".toList 60 120
        ⟨ExecBehavior.completed 3 [] "err".toList 1, some 7, none,
          ExecBehavior.completed 0 (List.replicate 50 'y') [] 1⟩).fr.replay = none ∧
    (process_but_file "g1".toList 60 120
        ⟨ExecBehavior.completed 3 [] "err".toList 1, some 7, none,
          ExecBehavior.completed 0 (List.replicate 50 'y') [] 1⟩).traceDeleted = true := by
  have h := (c3_stop_on_fail "g1".toList 60 120
    ⟨ExecBehavior.completed 3 [] "err".toList 1, some 7, none,
      ExecBehavior.completed 0 (List.replicate 50 'y') [] 1⟩).2
    ⟨false, 1, false, some ((pyStrip "err".toList).take 200), 7⟩ (by decide) (by decide)
  exact ⟨h.1, h.2.1, h.2.2.2.2 (by decide)⟩

/-- C10: every stage outcome stored in a FileRun satisfies
timedOut implies not succeeded, also after the post-hoc validation
overrides: a timed-out stage-2 execution yields no captured stdout, so the
long-stdout rule never forces success on it. -/
theorem c10_timeout_never_succeeds (stem : List Char) (ppT rT : Rat)
    (env : PipelineEnv) :
    (∀ p, (process_but_file stem ppT rT env).fr.pp = some p →
      p.timeout = true → p.success = false) ∧
    (∀ r, (process_but_file stem ppT rT env).fr.replay = some r →
      r.timeout = true → r.success = false) := by
  constructor
  · intro p hp htout
    have hpe : p = stage1_validated (run_krt_timed ppT false env.s1).1 env.traceSize :=
      Option.some.inj (hp.symm.trans (process_pp_eq stem ppT rT env))
    subst hpe
    cases hs : (stage1_validated (run_krt_timed ppT false env.s1).1 env.traceSize).success
    · rfl
    · exfalso
      obtain ⟨n, hn, hne, hraw⟩ := stage1_validated_success _ _ hs
      have h1 : (run_krt_timed ppT false env.s1).1.timeout = true := by
        rw [← stage1_validated_timeout (run_krt_timed ppT false env.s1).1 env.traceSize]
        exact htout
      have h2 := run_timeout_not_success ppT false env.s1 h1
      rw [hraw] at h2
      exact absurd h2 (by simp)
  · intro r hr htout
    rw [process_replay_eq stem ppT rT env] at hr
    by_cases hs : (stage1_validated (run_krt_timed ppT false env.s1).1 env.traceSize).success
      = true
    · rw [if_pos hs] at hr
      have hre : r = stage2_validated (run_krt_timed rT true env.s2).1
          (run_krt_timed rT true env.s2).2 := (Option.some.inj hr).symm
      subst hre
      have h1 : (run_krt_timed rT true env.s2).1.timeout = true := by
        rw [← stage2_validated_timeout (run_krt_timed rT true env.s2).1
          (run_krt_timed rT true env.s2).2]
        exact htout
      have h2 := run_timeout_no_stdout rT true env.s2 h1
      rw [stage2_validated_success _ _, h2]
      rfl
    · rw [if_neg (by simpa using hs)] at hr
      exact absurd hr (by simp)

/-- C10 witness: a stage-2 timeout (stage 1 fine) is stored with
timedOut true and succeeded false. -/
theorem c10_timeout_never_succeeds_witness :
    (process_but_file "g1".toList 60 120
        ⟨ExecBehavior.completed 0 [] [] 1, some 5, none,
          ExecBehavior.timedOut 120⟩).fr.replay
      = some ⟨false, 120, true, some (timeoutMessage 120), 0⟩ ∧
    StageResult.success ⟨false, 120, true, some (timeoutMessage 120), 0⟩ = false := by
  refine ⟨by decide, ?_⟩
  exact (c10_timeout_never_succeeds "g1".toList 60 120
    ⟨ExecBehavior.completed 0 [] [] 1, some 5, none, ExecBehavior.timedOut 120⟩).2
    ⟨false, 120, true, some (timeoutMessage 120), 0⟩ (by decide) (by decide)

/-- C6: the bounded runner is total over every observable behavior of the
external execution and never re-raises: timeout expiry yields an ordinary
outcome with timedOut true, succeeded false, a synthetic error text naming
the timeout value and no captured stdout; any other launch or execution
failure yields an outcome carrying the exception text truncated to 200
characters, again with no captured stdout. -/
theorem c6_runner_timeout_and_exception (t e : Rat) (cap : Bool) (msg : List Char) :
    run_krt_timed t cap (ExecBehavior.timedOut e)
      = (⟨false, e, true, some (timeoutMessage t), 0⟩, none) ∧
    containsSub (toString t).toList (timeoutMessage t) = true ∧
    run_krt_timed t cap (ExecBehavior.raised msg e)
      = (⟨false, e, false, some (msg.take 200), 0⟩, none) ∧
    (msg.take 200).length ≤ 200 := by
  refine ⟨rfl, ?_, rfl, ?_⟩
  · exact containsSub_append_right (toString t).toList "Timeout after ".toList
      ((toString t).toList ++ "s".toList)
      (containsSub_self_append (toString t).toList "s".toList)
  · rw [List.length_take]
    exact Nat.min_le_left _ _

/-- C7 counterexample: an execution that completes without timing out, with
exit code 0 and non-empty stderr, records NO error text at all (the error
field is dropped on success), so the recorded error text is not taken from
stderr whenever stderr is present. -/
theorem c7_counterexample_success_drops_stderr :
    (run_krt_timed 60 false (ExecBehavior.completed 0 [] "boom".toList 1)).1.error
      = none ∧
    "boom".toList.isEmpty = false ∧
    (run_krt_timed 60 false (ExecBehavior.completed 0 [] "boom".toList 1)).1.timeout
      = false := by
  exact ⟨by decide, by decide, by decide⟩

/-- C7 (amended): for every execution that completes without timing out
AND exits non-zero, the recorded error text is the stripped stderr
(truncated to 200 characters) when stderr is present and stdout is empty;
when stdout is non-empty, stdout takes precedence over stderr; on exit
code zero no error text is recorded at all; every recorded error text has
at most 200 characters. -/
theorem c7_error_text_characterization (rc : Int) (out err : List Char)
    (e t : Rat) (cap : Bool) :
    (rc ≠ 0 → out ≠ [] →
      (run_krt_timed t cap (ExecBehavior.completed rc out err e)).1.error
        = some ((pyStrip out).take 200)) ∧
    (rc ≠ 0 → out = [] → err ≠ [] →
      (run_krt_timed t cap (ExecBehavior.completed rc out err e)).1.error
        = some ((pyStrip err).take 200)) ∧
    (rc ≠ 0 → out = [] → err = [] →
      (run_krt_timed t cap (ExecBehavior.completed rc out err e)).1.error = none) ∧
    (rc = 0 →
      (run_krt_timed t cap (ExecBehavior.completed rc out err e)).1.error = none) ∧
    (∀ s, (run_krt_timed t cap (ExecBehavior.completed rc out err e)).1.error
        = some s → s.length ≤ 200) := by
  have hred : (run_krt_timed t cap (ExecBehavior.completed rc out err e)).1.error
      = (if !(rc == 0) then
          (if !out.isEmpty && !(rc == 0) then some ((pyStrip out).take 200)
           else (if !err.isEmpty then some ((pyStrip err).take 200) else none))
         else none) := rfl
  refine ⟨?_, ?_, ?_, ?_, ?_⟩
  · intro h1 h2
    have hb : (rc == 0) = false := by simpa using h1
    have ho : out.isEmpty = false := by simpa using h2
    simp [hred, hb, ho]
  · intro h1 h2 h3
    have hb : (rc == 0) = false := by simpa using h1
    subst h2
    have he : err.isEmpty = false := by simpa using h3
    simp [hred, hb, he]
  · intro h1 h2 h3
    have hb : (rc == 0) = false := by simpa using h1
    subst h2
    subst h3
    simp [hred, hb]
  · intro h1
    subst h1
    simp [hred]
  · intro s hs
    rw [hred] at hs
    cases hb : (rc == 0) with
    | true =>
      rw [hb] at hs
      simp at hs
    | false =>
      rw [hb] at hs
      cases ho : out.isEmpty with
      | false =>
        rw [ho] at hs
        simp at hs
        rw [← hs, List.length_take]
        exact Nat.min_le_left _ _
      | true =>
        rw [ho] at hs
        simp at hs
        rw [← hs.2, List.length_take]
        exact Nat.min_le_left _ _

/-- C7 witness: the amended characterization at a concrete failing
execution where both stdout and stderr are non-empty: stdout takes
precedence. -/
theorem c7_error_text_characterization_witness :
    (run_krt_timed 60 false
      (ExecBehavior.completed 1 "bad out".toList "some stderr".toList 1)).1.error
      = some ((pyStrip "bad out".toList).take 200) :=
  (c7_error_text_characterization 1 "bad out".toList "some stderr".toList 1 60
    false).1 (by decide) (by decide)

/-- C8: the failure classifier follows the fixed top-to-bottom decision
order with first match winning; absence of error text (None or empty, per
Python truthiness) short-circuits before any marker inspection, splitting
on the 10-byte artifact-size threshold; in particular no error text and
size 0 classifies as EMPTY_TRACE (the spec's EMPTY_ARTIFACT). -/
theorem c8_classifier_decision_order (e : Option (List Char)) (n : Nat) :
    (pyTruthyStr e = false → n ≤ 10 → categorize_replay_error e n = "EMPTY_TRACE") ∧
    (pyTruthyStr e = false → 10 < n → categorize_replay_error e n = "NO_OUTPUT") ∧
    (∀ s, e = some s → pyTruthyStr e = true →
      containsSub "GOALS STACK OVERFLOW".toList s = true →
      categorize_replay_error e n = "STACK_OVERFLOW") ∧
    (∀ s, e = some s → pyTruthyStr e = true →
      containsSub "GOALS STACK OVERFLOW".toList s = false →
      containsSub "missing atomic symbol".toList s = true →
      categorize_replay_error e n = "PARSE_ERROR") ∧
    (∀ s, e = some s → pyTruthyStr e = true →
      containsSub "GOALS STACK OVERFLOW".toList s = false →
      containsSub "missing atomic symbol".toList s = false →
      containsSub "Timeout".toList s = true →
      categorize_replay_error e n = "TIMEOUT") ∧
    (∀ s, e = some s → pyTruthyStr e = true →
      containsSub "GOALS STACK OVERFLOW".toList s = false →
      containsSub "missing atomic symbol".toList s = false →
      containsSub "Timeout".toList s = false →
      categorize_replay_error e n = "OTHER") ∧
    categorize_replay_error none 0 = "EMPTY_TRACE" ∧
    categorize_replay_error (some []) 0 = "EMPTY_TRACE" := by
  refine ⟨?_, ?_, ?_, ?_, ?_, ?_, by decide, by decide⟩
  · intro ht hn
    simp [categorize_replay_error, ht, hn]
  · intro ht hn
    simp [categorize_replay_error, ht, hn, Nat.not_le_of_lt hn]
  · intro s hs ht h1
    subst hs
    simp_all [categorize_replay_error]
  · intro s hs ht h1 h2
    subst hs
    simp_all [categorize_replay_error]
  · intro s hs ht h1 h2 h3
    subst hs
    simp_all [categorize_replay_error]
  · intro s hs ht h1 h2 h3
    subst hs
    simp_all [categorize_replay_error]

/-- C8 witness: concrete instances of the decision order, including the
short-circuit case (no error text, size 0) and a stack-overflow error. -/
theorem c8_classifier_decision_order_witness :
    categorize_replay_error none 0 = "EMPTY_TRACE" ∧
    categorize_replay_error (some "PP GOALS STACK OVERFLOW hit".toList) 9999
      = "STACK_OVERFLOW" := by
  refine ⟨(c8_classifier_decision_order none 0).1 (by decide) (by decide), ?_⟩
  exact (c8_classifier_decision_order
    (some "PP GOALS STACK OVERFLOW hit".toList) 9999).2.2.1
    "PP GOALS STACK OVERFLOW hit".toList rfl (by decide) (by decide)

/-- C9: the output router returns "no file" and moves nothing when the
source does not exist; otherwise it routes purely by lower-cased suffix
(.trace to the trace store, .replay to the replay store, no suffix to the
misc store) keeping the base name, and leaves any other suffix in place,
returning the path unchanged; in particular the spec's four concrete files
route as stated. -/
theorem c9_router_contract (nm : List Char) :
    move_to_output_dir false nm = MoveResult.noFile ∧
    (lowerSuffix nm = ".trace".toList →
      move_to_output_dir true nm = MoveResult.moved StoreDir.trace nm) ∧
    (lowerSuffix nm = ".replay".toList →
      move_to_output_dir true nm = MoveResult.moved StoreDir.replay nm) ∧
    (lowerSuffix nm = [] →
      move_to_output_dir true nm = MoveResult.moved StoreDir.misc nm) ∧
    (lowerSuffix nm ≠ ".trace".toList → lowerSuffix nm ≠ ".replay".toList →
      lowerSuffix nm ≠ [] →
      move_to_output_dir true nm = MoveResult.unchanged nm) ∧
    move_to_output_dir true "a.trace".toList
      = MoveResult.moved StoreDir.trace "a.trace".toList ∧
    move_to_output_dir true "b.replay".toList
      = MoveResult.moved StoreDir.replay "b.replay".toList ∧
    move_to_output_dir true "c".toList
      = MoveResult.moved StoreDir.misc "c".toList ∧
    move_to_output_dir true "d.res".toList
      = MoveResult.unchanged "d.res".toList := by
  refine ⟨by simp [move_to_output_dir], ?_, ?_, ?_, ?_,
    by decide, by decide, by decide, by decide⟩
  · intro h
    simp [move_to_output_dir, h]
  · intro h
    simp [move_to_output_dir, h]
  · intro h
    simp [move_to_output_dir, h]
  · intro h1 h2 h3
    simp only [move_to_output_dir]
    rw [if_neg (by decide), if_neg h1, if_neg h2, if_neg h3]

/-- C9 witness: routing applied at concrete names, including a case-folded
suffix. -/
theorem c9_router_contract_witness :
    move_to_output_dir true "x.TRACE".toList
      = MoveResult.moved StoreDir.trace "x.TRACE".toList ∧
    move_to_output_dir false "a.trace".toList = MoveResult.noFile := by
  exact ⟨(c9_router_contract "x.TRACE".toList).2.1 (by decide),
    (c9_router_contract "a.trace".toList).1⟩

end GenTraces
